import Mathlib

/-!
Shallow embedding of the `grafana-diagram` panel plugin, consisting of the
style resolver (`src/visualizers/updateDiagramStyle.ts`) and the panel
controller (`DiagramPanelController`) that orchestrates definition loading,
theme injection, rendering with fallback, and legend derivation.

Modelling conventions:
* JavaScript numbers that may be `NaN` are modelled as `Option Int`
  (`none` = `NaN`); the metric values exercised by the program are numeric
  display values, and no rounding behaviour is relied upon.
* DOM elements are modelled as records holding exactly the attributes and
  children that the style resolver reads or writes.  The five searchable
  element populations (elements with a `data-id`, spans, free-standing divs,
  text elements) are carried as separate lists in document order.
* `<br/>`-separated HTML text content is modelled as a list of lines.
* External library functions (`formattedValueToString` from `@grafana/data`,
  `diagramStyleFormatter`, the mermaid renderer, `fetch`) are modelled
  abstractly: `formattedValueToString` returns the display value's text,
  the renderer and fetch are environment-supplied functions.
-/

/-- A display value annotated with the lookup key; mirrors the
`MetricIndicator` type of `updateDiagramStyle.ts`.  `numeric = none` models
a `NaN` numeric value. -/
structure MetricIndicator where
  metricName : String
  valueName : String
  numeric : Option Int
  text : String
  color : Option String := none
  isComposite : Bool := false
  originalName : Option String := none
deriving Repr, DecidableEq

/-- Models `formattedValueToString(indicator)` from `@grafana/data`
(an excluded external collaborator): it renders the display value's text. -/
def formattedValueToString (i : MetricIndicator) : String := i.text

/-- Mirrors `CompositeMetric` from `config/types`: a named group of member
metric names plus the min-vs-max switch. -/
structure CompositeMetric where
  name : String
  members : List String
  showLowestValue : Bool
deriving Repr, DecidableEq

/-- `Number.isNaN(x) ? 0 : x` from the composite reduce callback. -/
def nanAsZero (x : Option Int) : Int :=
  match x with
  | none => 0
  | some v => v

/-- The value an indicator contributes to the composite comparison. -/
def massagedValue (i : MetricIndicator) : Int := nanAsZero i.numeric

/-- The `candidates.reduce((prev, current) => ...)` callback of
`reduceComposites`, unrolled over the candidate list: `prev` is the running
accumulator, seeded with the first candidate. -/
def reduceCandidates (showLowest : Bool) (prev : MetricIndicator) :
    List MetricIndicator → MetricIndicator
  | [] => prev
  | current :: rest =>
    let previousValue := nanAsZero prev.numeric
    let currentValue := nanAsZero current.numeric
    let currentIsLower := currentValue < previousValue
    let next :=
      if showLowest then (if currentIsLower then current else prev)
      else (if currentIsLower then prev else current)
    reduceCandidates showLowest next rest

/-- `c.members.flatMap((m) => indicators.filter((i) => i.metricName === m))`:
for each member name in order, all indicators carrying that name. -/
def compositeCandidates (indicators : List MetricIndicator)
    (members : List String) : List MetricIndicator :=
  members.foldr
    (fun m acc => indicators.filter (fun i => i.metricName = m) ++ acc) []

/-- Relabelling of the winning candidate performed by `reduceComposites`:
`originalName` records the pre-overwrite `metricName`, which is then
replaced by the composite's name. -/
def tagComposite (c : CompositeMetric) (w : MetricIndicator) : MetricIndicator :=
  { w with isComposite := true,
           originalName := some w.metricName,
           metricName := c.name }

/-- `reduceComposites` from `updateDiagramStyle.ts`: map over composites,
gather candidates, reduce to one winner, relabel it; composites without
candidates are dropped.  (The source mutates the winning indicator object in
place; this functional model returns the relabelled record.  All theorems
below quantify over a single composite's reduction.) -/
def reduceComposites (indicators : List MetricIndicator)
    (composites : List CompositeMetric) : List MetricIndicator :=
  composites.filterMap (fun c =>
    match compositeCandidates indicators c.members with
    | [] => none
    | x :: xs => some (tagComposite c (reduceCandidates c.showLowestValue x xs)))

/-! ### Number parsing and the resize helper -/

/-- Leading decimal digits of a character list, or `none` when the first
character is not a digit (the `NaN` case of `Number.parseInt`). -/
def leadingDigits (cs : List Char) : Option Nat :=
  let ds := cs.takeWhile Char.isDigit
  if ds.isEmpty then none
  else some (ds.foldl (fun a c => a * 10 + (c.toNat - 48)) 0)

/-- Models `Number.parseInt(s, 10)`: skip leading whitespace, optional sign,
parse leading decimal digits; `none` models `NaN`. -/
def parseIntJS (s : String) : Option Int :=
  let cs := s.data.dropWhile (fun c => c = ' ' ∨ c = '\t' ∨ c = '\n' ∨ c = '\r')
  match cs with
  | '-' :: rest => (leadingDigits rest).map (fun n => -(n : Int))
  | '+' :: rest => (leadingDigits rest).map (fun n => (n : Int))
  | rest => (leadingDigits rest).map (fun n => (n : Int))

/-- `getAttribute('width') || '1'`: a missing or empty attribute string is
replaced by `'1'`. -/
def attrOrOne (a : Option String) : String :=
  match a with
  | none => "1"
  | some s => if s = "" then "1" else s

/-- `Math.max` over a possibly-`NaN` first argument: `NaN` propagates. -/
def jsMaxNan (a : Option Int) (b : Int) : Option Int :=
  a.map (fun x => max x b)

/-- Rendering of a possibly-`NaN` number by `toString()`. -/
def jsNumToString (a : Option Int) : String :=
  match a with
  | none => "NaN"
  | some v => toString v

/-- Mirrors `NodeSizeOptions` from `config/types`. -/
structure NodeSizeOptions where
  minWidth : Int
  minHeight : Int
deriving Repr, DecidableEq

/-- The ancestor chain read and written by `resizeGrouping`: present exactly
when the element has a closest `g`, a closest `g.label` and a closest
`foreignObject`.  `labelTranslate` records the (width, height) pair from
which the source formats `translate(-w/2,-h/2)`. -/
structure GroupingCtx where
  groupTransform : String := ""
  labelTranslate : Option (Option Int × Option Int) := none
  foWidth : Option String := none
  foHeight : Option String := none
deriving Repr, DecidableEq

/-- `resizeGrouping` from `updateDiagramStyle.ts`: a `none` context models a
null/undefined element or a missing ancestor (the function returns without
touching anything); otherwise the group transform is cleared, the
foreignObject's width/height are set to the max of their parsed current
value and the configured minimum, and the label group is re-centred. -/
def resizeGrouping (ctx : Option GroupingCtx) (nodeSize : NodeSizeOptions) :
    Option GroupingCtx :=
  match ctx with
  | none => none
  | some g =>
    let w := jsMaxNan (parseIntJS (attrOrOne g.foWidth)) nodeSize.minWidth
    let h := jsMaxNan (parseIntJS (attrOrOne g.foHeight)) nodeSize.minHeight
    some { groupTransform := "",
           labelTranslate := some (w, h),
           foWidth := some (jsNumToString w),
           foHeight := some (jsNumToString h) }

/-! ### DOM element models and the five paint helpers -/

/-- Mirrors `DiagramOptions` (the fields the style resolver reads). -/
structure DiagramOptions where
  useBackground : Bool
  nodeSize : NodeSizeOptions
  composites : Option (List CompositeMetric) := none
  maxWidth : Bool := false
  style : String := ""
deriving Repr, DecidableEq

/-- The inner `div` of a shape node: its text content (lines separated by
`<br/>`), classes and inline styles touched by `styleD3Shapes`.
`marginTopQuarterOf` records the `nodeSize.minHeight` from which the source
formats `-${minHeight / 4}px`; `wrappedCentered` records that the content
was rewrapped in `<div style="margin:auto">`. -/
structure DivElem where
  textLines : List String
  diagramValueClass : Bool := false
  color : Option String := none
  marginTopQuarterOf : Option Int := none
  wrappedCentered : Bool := false
  grouping : Option GroupingCtx := none
deriving Repr, DecidableEq

/-- An element that can carry a `data-id` attribute: the strategy-1 target
(and, via `closest('.node')`, the strategy-3 target).  `div` is its first
inner `div` (d3 `select('div')`), `shapesFill` the fill style applied to its
`rect,circle,polygon,path` descendants. -/
structure ShapeElem where
  dataId : Option String := none
  div : Option DivElem := none
  shapesFill : Option String := none
deriving Repr, DecidableEq

/-- `styleD3Shapes` from `updateDiagramStyle.ts`.  When the shape has no
inner div, the class/resize/content steps are no-ops on the empty d3
selection and only the `useBackground` fill can apply. -/
def styleD3Shapes (e : ShapeElem) (indicator : MetricIndicator)
    (useBackground : Bool) (nodeSize : NodeSizeOptions) : ShapeElem :=
  match e.div with
  | none =>
    match indicator.color with
    | some col => if useBackground then { e with shapesFill := some col } else e
    | none => e
  | some d =>
    let d' : DivElem :=
      { d with diagramValueClass := true,
               grouping := resizeGrouping d.grouping nodeSize,
               textLines := d.textLines ++ [" " ++ formattedValueToString indicator]
                 ++ (if indicator.isComposite
                     then [indicator.originalName.getD "undefined"] else []),
               marginTopQuarterOf :=
                 if indicator.isComposite then some nodeSize.minHeight
                 else d.marginTopQuarterOf,
               wrappedCentered := true }
    match indicator.color with
    | none => { e with div := some d' }
    | some col =>
      if useBackground then { e with div := some d', shapesFill := some col }
      else { e with div := some { d' with color := some col } }

/-- A value span appended next to an edge label (or a `tspan` appended into
a sequence-diagram text element). -/
structure AppendedValueSpan where
  value : String
  diagramValueClass : Bool := true
  backgroundColor : Option String := none
  color : Option String := none
deriving Repr, DecidableEq

/-- A `<span>` edge label: the strategy-2 target.  The paint appends a
`<br/>` and a value span to its parent, resizes the parent's grouping and,
under `useBackground`, recolors the first child of the nearest
`.node.flowchart-label` ancestor (when such an ancestor with a first child
exists, recorded by `hasFlowAncestorChild`). -/
structure SpanElem where
  text : String
  parentAppendedBrs : Nat := 0
  parentAppendedValues : List AppendedValueSpan := []
  parentGrouping : Option GroupingCtx := none
  hasFlowAncestorChild : Bool := false
  flowAncestorChildFill : Option String := none
deriving Repr, DecidableEq

/-- `styleFlowChartEdgeLabel` from `updateDiagramStyle.ts`, applied to the
first span of the selection (the source reads `targetElement.node()`). -/
def styleFlowChartEdgeLabel (sp : SpanElem) (indicator : MetricIndicator)
    (useBackground : Bool) (nodeSize : NodeSizeOptions) : SpanElem :=
  let v : AppendedValueSpan := { value := formattedValueToString indicator }
  let base := { sp with parentAppendedBrs := sp.parentAppendedBrs + 1,
                        parentGrouping := resizeGrouping sp.parentGrouping nodeSize }
  match indicator.color with
  | none => { base with parentAppendedValues := sp.parentAppendedValues ++ [v] }
  | some col =>
    if useBackground then
      { base with
        parentAppendedValues :=
          sp.parentAppendedValues ++ [{ v with backgroundColor := some col }],
        flowAncestorChildFill :=
          if sp.hasFlowAncestorChild then some ("fill: " ++ col)
          else sp.flowAncestorChildFill }
    else
      { base with parentAppendedValues :=
          sp.parentAppendedValues ++ [{ v with color := some col }] }

/-- Bounding box returned by `getBBox()`. -/
structure TextBBox where
  x : Rat
  y : Rat
  w : Rat
  h : Rat
deriving Repr, DecidableEq

/-- The `<rect>`/`<text>` pair inserted below a text edge label by
`styleTextEdgeLabel`. -/
structure InsertedValueMarker where
  rectX : Rat
  rectY : Rat
  rectW : Rat
  rectH : Rat
  rectFill : Option String := none
  textValue : String
  textX : Rat
  textY : Rat
  textAnchorMiddle : Bool := true
  textColor : Option String := none
deriving Repr, DecidableEq

/-- A `<text>` element: target of strategies 4 and 5. -/
structure TextElem where
  text : String
  bbox : TextBBox := { x := 0, y := 0, w := 0, h := 0 }
  inserted : List InsertedValueMarker := []
  tspans : List AppendedValueSpan := []
deriving Repr, DecidableEq

/-- `styleTextEdgeLabel` from `updateDiagramStyle.ts`, per selected element:
the whole insertion is guarded by `if (indicator.color)`, so a colorless
indicator inserts nothing. -/
def styleTextEdgeLabel (t : TextElem) (indicator : MetricIndicator)
    (useBackground : Bool) : TextElem :=
  match indicator.color with
  | none => t
  | some col =>
    let mx := t.bbox.x
    let my := t.bbox.y + t.bbox.h + 10
    let marker : InsertedValueMarker :=
      { rectX := mx, rectY := my, rectW := t.bbox.w, rectH := t.bbox.h,
        rectFill := if useBackground then some col else none,
        textValue := formattedValueToString indicator,
        textX := mx + t.bbox.w / 2, textY := my + t.bbox.h - 1,
        textColor := if useBackground then none else some col }
    { t with inserted := t.inserted ++ [marker] }

/-- `styleSequenceDiagramEdgeLabel` from `updateDiagramStyle.ts`, per
selected element: append a value `tspan`, colored by background or text
color. -/
def styleSequenceDiagramEdgeLabel (t : TextElem) (indicator : MetricIndicator)
    (useBackground : Bool) : TextElem :=
  let v : AppendedValueSpan := { value := formattedValueToString indicator }
  let v' :=
    match indicator.color with
    | none => v
    | some col =>
      if useBackground then { v with backgroundColor := some col }
      else { v with color := some col }
  { t with tspans := t.tspans ++ [v'] }

/-! ### The container and the five lookup strategies -/

/-- Substring test on character lists: does `s` contain `pat` as a
contiguous subsequence?  Models JavaScript `String.prototype.includes`. -/
def containsSeq (pat : List Char) : List Char → Bool
  | [] => pat.isEmpty
  | c :: rest => pat.isPrefixOf (c :: rest) || containsSeq pat rest

/-- A free-standing `<div>` (strategy-3 source): its text and, when it has
one, its closest `.node` ancestor (the element the paint then styles). -/
structure DivAlias where
  text : String
  nodeAncestor : Option ShapeElem := none
deriving Repr, DecidableEq

/-- The rendered-SVG container as seen by the style resolver: the four
searchable element populations, each in document order.  (In a real DOM
these populations may alias — e.g. a strategy-3 div lives under its `.node`
ancestor — the model carries each population separately since the resolver
only ever reaches an element through one population per strategy.) -/
structure Container where
  idElems : List ShapeElem := []
  spans : List SpanElem := []
  divAliases : List DivAlias := []
  texts : List TextElem := []
deriving Repr, DecidableEq

/-- Indices of the elements of `l` satisfying `p`, in order (a d3
`selectAll(...).filter(...)` selection). -/
def matchingIdxs (p : α → Bool) (l : List α) : List Nat :=
  (List.range l.length).filter (fun j =>
    match l.get? j with
    | some x => p x
    | none => false)

/-- `selectElementById`: `querySelector('[data-id="..."]')` returns the
first matching element in document order, or nothing. -/
def selectElementById (c : Container) (id : String) : Option Nat :=
  List.findIdx? (fun e => e.dataId = some id) c.idElems

/-- `selectElementByEdgeLabel`: all spans whose text equals the key. -/
def selectElementByEdgeLabel (c : Container) (id : String) : List Nat :=
  matchingIdxs (fun sp => sp.text = id) c.spans

/-- `selectDivElementByAlias`: first div whose text equals the alias, then
its closest `.node` ancestor; an absent div or absent ancestor yields the
empty selection (`select(null)`). -/
def selectDivElementByAlias (c : Container) (a : String) : Option Nat :=
  match List.findIdx? (fun d => d.text = a) c.divAliases with
  | none => none
  | some j =>
    match c.divAliases.get? j with
    | some d => if d.nodeAncestor.isSome then some j else none
    | none => none

/-- `selectTextElementByAlias`: all text elements with exactly equal text. -/
def selectTextElementByAlias (c : Container) (a : String) : List Nat :=
  matchingIdxs (fun t => t.text = a) c.texts

/-- `selectTextElementContainingAlias`: all text elements whose text
contains the alias as a substring. -/
def selectTextElementContainingAlias (c : Container) (a : String) : List Nat :=
  matchingIdxs (fun t => containsSeq a.data t.text.data) c.texts

/-- Which of the five strategies fires, in the source's order. -/
inductive Strategy where
  | byId
  | spanEdgeLabel
  | divAlias
  | textExact
  | textSubstring
deriving Repr, DecidableEq

/-- The strategy `processDiagramSeriesModel` ends up running for a given
key: the first of the five lookups, in order, with a non-empty selection. -/
def selectedStrategy (c : Container) (key : String) : Option Strategy :=
  match selectElementById c key with
  | some _ => some .byId
  | none =>
    match selectElementByEdgeLabel c key with
    | _ :: _ => some .spanEdgeLabel
    | [] =>
      match selectDivElementByAlias c key with
      | some _ => some .divAlias
      | none =>
        match selectTextElementByAlias c key with
        | _ :: _ => some .textExact
        | [] =>
          match selectTextElementContainingAlias c key with
          | _ :: _ => some .textSubstring
          | [] => none

/-- `processDiagramSeriesModel` from `updateDiagramStyle.ts`: try the five
lookups in order; the first non-empty selection is painted and the function
returns; when no lookup matches, the container is returned untouched (the
source merely falls off the end — no exception path exists). -/
def processDiagramSeriesModel (c : Container) (indicator : MetricIndicator)
    (options : DiagramOptions) : Container :=
  let key := indicator.metricName
  match selectElementById c key with
  | some i =>
    match c.idElems.get? i with
    | some e =>
      let e' := styleD3Shapes e indicator options.useBackground options.nodeSize
      { c with idElems := c.idElems.set i e' }
    | none => c
  | none =>
    match selectElementByEdgeLabel c key with
    | j :: _ =>
      match c.spans.get? j with
      | some sp =>
        let sp' :=
          styleFlowChartEdgeLabel sp indicator options.useBackground options.nodeSize
        { c with spans := c.spans.set j sp' }
      | none => c
    | [] =>
      match selectDivElementByAlias c key with
      | some j =>
        match c.divAliases.get? j with
        | some d =>
          match d.nodeAncestor with
          | some anc =>
            let anc' :=
              styleD3Shapes anc indicator options.useBackground options.nodeSize
            { c with divAliases :=
                c.divAliases.set j { d with nodeAncestor := some anc' } }
          | none => c
        | none => c
      | none =>
        match selectTextElementByAlias c key with
        | _ :: _ =>
          let texts' := c.texts.map (fun t =>
            if t.text = key
            then styleTextEdgeLabel t indicator options.useBackground
            else t)
          { c with texts := texts' }
        | [] =>
          match selectTextElementContainingAlias c key with
          | _ :: _ =>
            let texts' := c.texts.map (fun t =>
              if containsSeq key.data t.text.data
              then styleSequenceDiagramEdgeLabel t indicator options.useBackground
              else t)
            { c with texts := texts' }
          | [] => c

/-! ### Series models, the top-level style pass, and the legend -/

/-- A display-value candidate of a series (`DisplayValue` from
`@grafana/data`, restricted to the fields this program reads). -/
structure DisplayValueModel where
  title : String
  text : String
  numeric : Option Int
  color : Option String := none
deriving Repr, DecidableEq

/-- `valueField.config.custom` — the custom field config naming which
display value to surface; `none` models an absent/falsy `custom`. -/
structure CustomFieldConfig where
  valueName : String
deriving Repr, DecidableEq

/-- Mirrors `DiagramSeriesModel` (the fields this program reads).  A data
row is a `[time, value]` pair; `none` models a null value. -/
structure DiagramSeriesModel where
  label : String
  customConfig : Option CustomFieldConfig := none
  info : Option (List DisplayValueModel) := none
  seriesData : List (Option Int × Option Int) := []
  isVisible : Bool := true
deriving Repr, DecidableEq

/-- `reduceModels` from `updateDiagramStyle.ts`: keep series with a custom
value config, pick the display value whose title equals the configured
value name, and annotate it with the series label as lookup key. -/
def reduceModels (models : List DiagramSeriesModel) : List MetricIndicator :=
  models.filterMap (fun m =>
    match m.customConfig with
    | none => none
    | some cfg =>
      match (m.info.getD []).find? (fun dv => dv.title = cfg.valueName) with
      | none => none
      | some dv =>
        some { metricName := m.label, valueName := dv.title,
               numeric := dv.numeric, text := dv.text, color := dv.color })

/-- The `<svg>` child of the panel container together with the global
tweaks `updateDiagramStyle` may apply to it. -/
structure SvgRoot where
  container : Container := {}
  maxWidthStyle : Bool := false
  hasParent : Bool := true
  parentOverflowScroll : Bool := false
deriving Repr, DecidableEq

/-- The panel container element handed to `updateDiagramStyle`:
`svg = none` models a container with no `<svg>` descendant.
`styleBlocks` records the `<style>` elements appended by
`injectCustomStyle` as (style text, diagram id) pairs — the actual CSS text
is produced by the external `diagramStyleFormatter`. -/
structure PanelElement where
  svg : Option SvgRoot := none
  styleBlocks : List (String × String) := []
deriving Repr, DecidableEq

/-- `updateDiagramStyle` from `updateDiagramStyle.ts`: derive indicators,
bail out when the container holds no `<svg>`, apply the global size tweaks,
process every direct indicator and then every composite, and finally append
the custom style block. -/
def updateDiagramStyle (el : PanelElement) (models : List DiagramSeriesModel)
    (options : DiagramOptions) (diagramId : String) : PanelElement :=
  let indicators := reduceModels models
  match el.svg with
  | none => el
  | some svg =>
    let svg := if options.maxWidth then { svg with maxWidthStyle := true } else svg
    let svg :=
      if svg.hasParent && !options.maxWidth
      then { svg with parentOverflowScroll := true } else svg
    let c := indicators.foldl
      (fun c i => processDiagramSeriesModel c i options) svg.container
    let c := (reduceComposites indicators (options.composites.getD [])).foldl
      (fun c i => processDiagramSeriesModel c i options) c
    { el with svg := some { svg with container := c },
              styleBlocks := el.styleBlocks ++ [(options.style, diagramId)] }

/-- `shouldHideLegendItem` from `DiagramPanelController`:
`isZeroOnlySeries` sums each row's value (`current[1] || 0`, so null
becomes 0) and compares with 0; `isNullOnlySeries` is the negation of an
AND-fold of `current[1] !== null` — i.e. it is true exactly when SOME
value is null. -/
def shouldHideLegendItem (seriesData : List (Option Int × Option Int))
    (hideEmpty : Bool := false) (hideZero : Bool := false) : Bool :=
  let isZeroOnlySeries :=
    (seriesData.foldl (fun acc current => acc + current.2.getD 0) (0 : Int)) = 0
  let isNullOnlySeries :=
    !(seriesData.foldl (fun acc current => acc && current.2.isSome) true)
  (hideEmpty && isNullOnlySeries) || (hideZero && isZeroOnlySeries)

/-- A legend entry (`VizLegendItem`, restricted to the fields this program
sets; `displayValues` models the `getDisplayValues` closure's result). -/
structure VizLegendItemModel where
  label : String
  color : String := ""
  disabled : Bool
  yAxis : Nat := 0
  displayValues : List DisplayValueModel := []
deriving Repr, DecidableEq

/-- `getLegendItems` from `DiagramPanelController`: one entry per series
that the hide rule keeps. -/
def getLegendItems (data : List DiagramSeriesModel)
    (hideEmpty hideZero : Bool) : List VizLegendItemModel :=
  data.foldl (fun acc s =>
    if shouldHideLegendItem s.seriesData hideEmpty hideZero then acc
    else acc ++ [{ label := s.label, disabled := !s.isVisible,
                   displayValues := s.info.getD [] }]) []

/-! ### The panel controller: theme injection, definition loading, render -/

/-- Existence of a match of the regex `%%\{[\s\S]*?\}%%` in the content:
some position starts with `%%{` and is followed, after the brace, by a
later occurrence of `}%%`. -/
def hasInitDirectiveChars : List Char → Bool
  | [] => false
  | c :: rest =>
    (['%', '%', '\x7b'].isPrefixOf (c :: rest) && containsSeq ['\x7d', '%', '%'] (rest.drop 2))
    || hasInitDirectiveChars rest

/-- `content.match(/%%\{[\s\S]*?\}%%/)` yields a match. -/
def hasInitDirective (content : String) : Bool :=
  hasInitDirectiveChars content.data

/-- One theme-variable override object, modelled as an association list in
insertion order (JavaScript object spread and `JSON.stringify` both follow
insertion order). -/
def VarObject := List (String × String)

/-- Last value bound to a key, if any. -/
def lookupLastVar (k : String) (o : VarObject) : Option String :=
  o.foldl (fun acc kv => if kv.1 = k then some kv.2 else acc) none

/-- Is a key present? -/
def hasVarKey (k : String) (o : VarObject) : Bool :=
  o.any (fun kv => kv.1 = k)

/-- JavaScript object spread `{...a, ...b}`: keys of `a` in order with
values overridden by `b`, then keys of `b` not in `a`, in order. -/
def spreadMerge (a b : VarObject) : VarObject :=
  (a.map (fun kv => (kv.1, (lookupLastVar kv.1 b).getD kv.2)))
    ++ (b.filter (fun kv => !(hasVarKey kv.1 a)))

/-- `JSON.stringify` of a string-valued object (escaping of exotic
characters inside keys/values is not modelled). -/
def jsonStringifyVars (o : VarObject) : String :=
  "\x7b"
    ++ String.intercalate ","
        (o.map (fun kv => "\"" ++ kv.1 ++ "\":\"" ++ kv.2 ++ "\""))
    ++ "\x7d"

/-- The per-grammar theme-variable override sets
(`mermaidThemeVariablesDark` / `...Light` option objects). -/
structure ThemeVariableSets where
  common : VarObject := []
  classDiagram : VarObject := []
  flowChart : VarObject := []
  sequenceDiagram : VarObject := []
  stateDiagram : VarObject := []
  userJourneyDiagram : VarObject := []

/-- The controller-facing options (`DiagramOptions` fields read by
`DiagramPanelController`).  An empty `contentUrl` models a falsy one. -/
structure ControllerOptions where
  content : String := ""
  contentUrl : String := ""
  mermaidThemeVariablesDark : ThemeVariableSets := {}
  mermaidThemeVariablesLight : ThemeVariableSets := {}

/-- The merged override object built in `contentProcessor`'s else branch:
`{...common, ...classDiagram, ...flowChart, ...sequenceDiagram,
...stateDiagram, ...userJourneyDiagram}`. -/
def mergedOverrides (t : ThemeVariableSets) : VarObject :=
  spreadMerge
    (spreadMerge
      (spreadMerge
        (spreadMerge (spreadMerge t.common t.classDiagram) t.flowChart)
        t.sequenceDiagram)
      t.stateDiagram)
    t.userJourneyDiagram

/-- `contentProcessor` from `DiagramPanelController`: if the definition
already contains an init directive block, return it unchanged; otherwise
prepend a synthesized `%%{init: ...}%%` directive carrying the base theme
and the merged theme variables. -/
def contentProcessor (isDark : Bool) (options : ControllerOptions)
    (content : String) : String :=
  let baseTheme := if isDark then "dark" else "base"
  if hasInitDirective content then content
  else
    let overrides :=
      if isDark then mergedOverrides options.mermaidThemeVariablesDark
      else mergedOverrides options.mermaidThemeVariablesLight
    let customTheme := "%%\x7binit: \x7b'theme': '" ++ baseTheme
      ++ "', 'themeVariables': " ++ jsonStringifyVars overrides ++ "\x7d\x7d%%\n"
    customTheme ++ content

/-- A resolved HTTP response (the fields `getRemoteDiagramDefinition`
reads; a network-level rejection is outside the model). -/
structure FetchResponse where
  status : Nat
  statusText : String := ""
  body : String := ""

/-- `response.ok`: status in the 200–299 range. -/
def responseOk (r : FetchResponse) : Bool :=
  200 ≤ r.status && r.status ≤ 299

/-- The environment of a controller render pass: the external collaborators
(variable interpolation, fetch, the mermaid renderer) plus theme, options
and panel id.  `render` takes the diagram id and the definition text and
either returns the SVG markup or throws (modelled by `Except.error` with
the error's message). -/
structure ControllerEnv where
  replaceVariables : String → String
  fetch : String → FetchResponse
  render : String → String → Except String String
  isDark : Bool
  options : ControllerOptions
  panelId : Nat

/-- `getRemoteDiagramDefinition`: fetch the interpolated URL; a non-success
status throws an explicit error, otherwise the body is returned. -/
def getRemoteDiagramDefinition (env : ControllerEnv) (url : String) :
    Except String String :=
  let r := env.fetch (env.replaceVariables url)
  if responseOk r then .ok r.body
  else .error ("Failed to fetch diagram definition: " ++ toString r.status
    ++ " " ++ r.statusText)

/-- `loadDiagramDefinition`: remote when a content URL is configured,
otherwise the inline content. -/
def loadDiagramDefinition (env : ControllerEnv) : Except String String :=
  if env.options.contentUrl ≠ "" then
    getRemoteDiagramDefinition env env.options.contentUrl
  else .ok env.options.content

/-- The diagram id string `diagram-${id}`. -/
def diagramIdOf (env : ControllerEnv) : String :=
  "diagram-" ++ toString env.panelId

/-- The definition passed to the primary render attempt:
`replaceVariables(contentProcessor(diagramDefinition))`. -/
def interpolatedOf (env : ControllerEnv) (defn : String) : String :=
  env.replaceVariables (contentProcessor env.isDark env.options defn)

/-- What the diagram container `<div>` holds after a render pass. -/
inductive ContainerContent where
  | initial
  | html (s : String)
deriving Repr, DecidableEq

/-- The inline error markup written by the outer catch:
`<div><p>Error rendering diagram. ...</p><p>${err}</p></div>`. -/
def errorHtmlFor (e : String) : String :=
  "<div><p>Error rendering diagram. Check the diagram definition</p><p>"
    ++ e ++ "</p></div>"

/-- Observable outcome of one controller render pass: the final container
content, the render attempts made (diagram id, definition text) in call
order, and any error that propagated out of the async function uncaught. -/
structure RenderPassResult where
  container : ContainerContent
  renderAttempts : List (String × String)
  thrown : Option String
deriving Repr, DecidableEq

/-- Models `initializeMermaid` from `DiagramPanelController`, assuming the
container ref is mounted.  The definition is loaded BEFORE the try/catch:
a load failure therefore propagates out with the container untouched.
Inside the try block, the primary render uses the theme-injected,
variable-interpolated definition; on a renderer exception the inner catch
retries once with the raw definition and the same diagram id; a second
exception reaches the outer catch, which writes the inline error markup.
(`mermaid.initialize`, `bindFunctions` and the subsequent
`updateDiagramStyle` DOM pass have no observable effect on this result and
the style pass is modelled separately above.) -/
def runMermaidRenderPass (env : ControllerEnv) : RenderPassResult :=
  match loadDiagramDefinition env with
  | .error e => { container := .initial, renderAttempts := [], thrown := some e }
  | .ok diagramDefinition =>
    let diagramId := diagramIdOf env
    let interpolated := interpolatedOf env diagramDefinition
    match env.render diagramId interpolated with
    | .ok svg =>
      { container := .html svg,
        renderAttempts := [(diagramId, interpolated)], thrown := none }
    | .error _ =>
      match env.render diagramId diagramDefinition with
      | .ok svg =>
        { container := .html svg,
          renderAttempts := [(diagramId, interpolated), (diagramId, diagramDefinition)],
          thrown := none }
      | .error e2 =>
        { container := .html (errorHtmlFor e2),
          renderAttempts := [(diagramId, interpolated), (diagramId, diagramDefinition)],
          thrown := none }

/-! ## Verification

Helper lemmas about the composite fold, then one theorem per specified
property of the program. -/

theorem reduceCandidates_mem (s : Bool) (l : List MetricIndicator) :
    ∀ prev, reduceCandidates s prev l ∈ prev :: l := by
  induction l with
  | nil => intro prev; simp [reduceCandidates]
  | cons current rest ih =>
    intro prev
    by_cases h : nanAsZero current.numeric < nanAsZero prev.numeric
    · cases s with
      | false =>
        have hstep : reduceCandidates false prev (current :: rest)
            = reduceCandidates false prev rest := by
          simp [reduceCandidates, h]
        rw [hstep]
        have hm := ih prev
        simp only [List.mem_cons] at hm ⊢
        tauto
      | true =>
        have hstep : reduceCandidates true prev (current :: rest)
            = reduceCandidates true current rest := by
          simp [reduceCandidates, h]
        rw [hstep]
        have hm := ih current
        simp only [List.mem_cons] at hm ⊢
        tauto
    · cases s with
      | false =>
        have hstep : reduceCandidates false prev (current :: rest)
            = reduceCandidates false current rest := by
          simp [reduceCandidates, h]
        rw [hstep]
        have hm := ih current
        simp only [List.mem_cons] at hm ⊢
        tauto
      | true =>
        have hstep : reduceCandidates true prev (current :: rest)
            = reduceCandidates true prev rest := by
          simp [reduceCandidates, h]
        rw [hstep]
        have hm := ih prev
        simp only [List.mem_cons] at hm ⊢
        tauto

theorem reduceCandidates_le (l : List MetricIndicator) :
    ∀ prev, ∀ y ∈ prev :: l,
      massagedValue (reduceCandidates true prev l) ≤ massagedValue y := by
  induction l with
  | nil =>
    intro prev y hy
    simp only [List.mem_cons, List.not_mem_nil, or_false] at hy
    subst hy
    simp [reduceCandidates]
  | cons current rest ih =>
    intro prev y hy
    by_cases h : nanAsZero current.numeric < nanAsZero prev.numeric
    · have hstep : reduceCandidates true prev (current :: rest)
          = reduceCandidates true current rest := by
        simp [reduceCandidates, h]
      rw [hstep]
      simp only [List.mem_cons] at hy
      rcases hy with h1 | h2 | h3
      · rw [h1]
        exact le_trans (ih current current (List.mem_cons_self _ _)) (le_of_lt h)
      · rw [h2]
        exact ih current current (List.mem_cons_self _ _)
      · exact ih current y (List.mem_cons_of_mem _ h3)
    · have hstep : reduceCandidates true prev (current :: rest)
          = reduceCandidates true prev rest := by
        simp [reduceCandidates, h]
      rw [hstep]
      simp only [List.mem_cons] at hy
      rcases hy with h1 | h2 | h3
      · rw [h1]
        exact ih prev prev (List.mem_cons_self _ _)
      · rw [h2]
        exact le_trans (ih prev prev (List.mem_cons_self _ _)) (not_lt.mp h)
      · exact ih prev y (List.mem_cons_of_mem _ h3)

theorem reduceCandidates_ge (l : List MetricIndicator) :
    ∀ prev, ∀ y ∈ prev :: l,
      massagedValue y ≤ massagedValue (reduceCandidates false prev l) := by
  induction l with
  | nil =>
    intro prev y hy
    simp only [List.mem_cons, List.not_mem_nil, or_false] at hy
    subst hy
    simp [reduceCandidates]
  | cons current rest ih =>
    intro prev y hy
    by_cases h : nanAsZero current.numeric < nanAsZero prev.numeric
    · have hstep : reduceCandidates false prev (current :: rest)
          = reduceCandidates false prev rest := by
        simp [reduceCandidates, h]
      rw [hstep]
      simp only [List.mem_cons] at hy
      rcases hy with h1 | h2 | h3
      · rw [h1]
        exact ih prev prev (List.mem_cons_self _ _)
      · rw [h2]
        exact le_trans (le_of_lt h) (ih prev prev (List.mem_cons_self _ _))
      · exact ih prev y (List.mem_cons_of_mem _ h3)
    · have hstep : reduceCandidates false prev (current :: rest)
          = reduceCandidates false current rest := by
        simp [reduceCandidates, h]
      rw [hstep]
      simp only [List.mem_cons] at hy
      rcases hy with h1 | h2 | h3
      · rw [h1]
        exact le_trans (not_lt.mp h) (ih current current (List.mem_cons_self _ _))
      · rw [h2]
        exact ih current current (List.mem_cons_self _ _)
      · exact ih current y (List.mem_cons_of_mem _ h3)

theorem reduceCandidates_allNaN_keep_first (l : List MetricIndicator) :
    ∀ prev, prev.numeric = none → (∀ y ∈ l, y.numeric = none) →
      reduceCandidates true prev l = prev := by
  induction l with
  | nil => intro prev _ _; rfl
  | cons current rest ih =>
    intro prev hp hl
    have hc : current.numeric = none := hl current (by simp)
    have hstep : reduceCandidates true prev (current :: rest)
        = reduceCandidates true prev rest := by
      simp [reduceCandidates, hp, hc, nanAsZero]
    rw [hstep]
    exact ih prev hp (fun y hy => hl y (by simp [hy]))

theorem reduceCandidates_allNaN_keep_last (l : List MetricIndicator) :
    ∀ prev, prev.numeric = none → (∀ y ∈ l, y.numeric = none) →
      reduceCandidates false prev l = l.getLastD prev := by
  induction l with
  | nil => intro prev _ _; rfl
  | cons current rest ih =>
    intro prev hp hl
    have hc : current.numeric = none := hl current (by simp)
    have hstep : reduceCandidates false prev (current :: rest)
        = reduceCandidates false current rest := by
      simp [reduceCandidates, hp, hc, nanAsZero]
    rw [hstep, List.getLastD_cons]
    exact ih current hc (fun y hy => hl y (by simp [hy]))

/-- C1: for every composite metric with candidate member indicators, the
reduction returns one of the candidates, relabelled with the composite's
name, and — treating a `NaN` numeric value as 0 in the comparison — the
winner carries the minimum comparison value when `showLowestValue` is true
and the maximum when it is false. -/
theorem reduceComposites_selects_extremum
    (indicators : List MetricIndicator) (c : CompositeMetric)
    (x : MetricIndicator) (xs : List MetricIndicator)
    (hc : compositeCandidates indicators c.members = x :: xs) :
    ∃ w ∈ x :: xs,
      reduceComposites indicators [c] = [tagComposite c w]
      ∧ ∀ y ∈ x :: xs,
          (c.showLowestValue = true → massagedValue w ≤ massagedValue y)
          ∧ (c.showLowestValue = false → massagedValue y ≤ massagedValue w) := by
  refine ⟨reduceCandidates c.showLowestValue x xs,
    reduceCandidates_mem c.showLowestValue xs x, ?_, ?_⟩
  · simp [reduceComposites, hc]
  · intro y hy
    constructor
    · intro hs
      rw [hs]
      exact reduceCandidates_le xs x y hy
    · intro hs
      rw [hs]
      exact reduceCandidates_ge xs x y hy

def indA5 : MetricIndicator :=
  { metricName := "a", valueName := "v", numeric := some 5, text := "5" }

def indB2 : MetricIndicator :=
  { metricName := "b", valueName := "v", numeric := some 2, text := "2" }

def indC8 : MetricIndicator :=
  { metricName := "c", valueName := "v", numeric := some 8, text := "8" }

def cmpLow528 : CompositeMetric :=
  { name := "comp", members := ["a", "b", "c"], showLowestValue := true }

def cmpHigh528 : CompositeMetric :=
  { name := "comp", members := ["a", "b", "c"], showLowestValue := false }

/-- C1 witness: candidates with values `[5, 2, 8]` resolve to the value-2
member under `showLowestValue = true` and to the value-8 member under
`showLowestValue = false`. -/
theorem reduceComposites_selects_extremum_witness :
    compositeCandidates [indA5, indB2, indC8] cmpLow528.members
        = indA5 :: [indB2, indC8]
    ∧ (∃ w ∈ indA5 :: [indB2, indC8],
        reduceComposites [indA5, indB2, indC8] [cmpLow528] = [tagComposite cmpLow528 w]
        ∧ ∀ y ∈ indA5 :: [indB2, indC8],
            (cmpLow528.showLowestValue = true → massagedValue w ≤ massagedValue y)
            ∧ (cmpLow528.showLowestValue = false → massagedValue y ≤ massagedValue w))
    ∧ (reduceComposites [indA5, indB2, indC8] [cmpLow528]).map (fun r => r.numeric)
        = [some 2]
    ∧ (reduceComposites [indA5, indB2, indC8] [cmpHigh528]).map (fun r => r.numeric)
        = [some 8] :=
  ⟨rfl,
   reduceComposites_selects_extremum [indA5, indB2, indC8] cmpLow528 indA5 [indB2, indC8] rfl,
   rfl, rfl⟩

def indNanA : MetricIndicator :=
  { metricName := "a", valueName := "v", numeric := none, text := "NaN" }

def indNanB : MetricIndicator :=
  { metricName := "b", valueName := "v", numeric := none, text := "NaN" }

def cmpNanHigh : CompositeMetric :=
  { name := "comp", members := ["a", "b"], showLowestValue := false }

def cmpNanLow : CompositeMetric :=
  { name := "comp", members := ["a", "b"], showLowestValue := true }

/-- C3 counterexample: with two all-`NaN` members and
`showLowestValue = false`, the reduction resolves to the SECOND candidate
(member `"b"`), not the first — ties in max mode take the current
candidate, so the claim's "first candidate regardless of the flag" fails. -/
theorem allNaN_composite_not_first_counterexample :
    (reduceComposites [indNanA, indNanB] [cmpNanHigh]).map (fun r => r.originalName)
        = [some "b"]
    ∧ (reduceComposites [indNanA, indNanB] [cmpNanHigh]).map (fun r => r.originalName)
        ≠ [some "a"] := by
  refine ⟨rfl, ?_⟩
  decide

/-- C3 amended: for a composite all of whose candidates have `NaN` values,
every candidate is treated as 0 and the reduction resolves to the FIRST
candidate when `showLowestValue` is true, but to the LAST candidate when it
is false (strict `<` keeps the accumulator on ties only in min mode; max
mode takes the current candidate on ties). -/
theorem reduceComposites_allNaN_first_or_last
    (indicators : List MetricIndicator) (c : CompositeMetric)
    (x : MetricIndicator) (xs : List MetricIndicator)
    (hc : compositeCandidates indicators c.members = x :: xs)
    (hnan : ∀ y ∈ x :: xs, y.numeric = none) :
    reduceComposites indicators [c]
      = [tagComposite c (if c.showLowestValue then x else xs.getLastD x)] := by
  have hx : x.numeric = none := hnan x (by simp)
  have hxs : ∀ y ∈ xs, y.numeric = none := fun y hy => hnan y (by simp [hy])
  cases hs : c.showLowestValue with
  | true =>
    simp only [reduceComposites, List.filterMap, hc, hs, if_true]
    rw [reduceCandidates_allNaN_keep_first xs x hx hxs]
  | false =>
    simp only [reduceComposites, List.filterMap, hc, hs, if_false]
    rw [reduceCandidates_allNaN_keep_last xs x hx hxs]
    simp

/-- C3 amended witness: two all-`NaN` candidates resolve to `"a"` (first)
under `showLowestValue = true` and to `"b"` (last) under
`showLowestValue = false`. -/
theorem reduceComposites_allNaN_first_or_last_witness :
    (∀ y ∈ indNanA :: [indNanB], y.numeric = none)
    ∧ reduceComposites [indNanA, indNanB] [cmpNanLow]
        = [tagComposite cmpNanLow (if cmpNanLow.showLowestValue then indNanA
            else [indNanB].getLastD indNanA)]
    ∧ reduceComposites [indNanA, indNanB] [cmpNanHigh]
        = [tagComposite cmpNanHigh (if cmpNanHigh.showLowestValue then indNanA
            else [indNanB].getLastD indNanA)] :=
  ⟨by decide,
   reduceComposites_allNaN_first_or_last [indNanA, indNanB] cmpNanLow indNanA [indNanB]
     rfl (by decide),
   reduceComposites_allNaN_first_or_last [indNanA, indNanB] cmpNanHigh indNanA [indNanB]
     rfl (by decide)⟩

/-- C2: the five lookup strategies are tried in the strict source order —
data-id, span label, div alias, exact text, substring text — and the first
one with a non-empty selection is the only one whose paint runs (an empty
selection falls through).  In particular, when an element's `data-id`
equals the metric name, the shape paint runs on that element, its div's
text content gains the formatted value as a trailing line, and the span,
div-alias and text populations (the targets of the remaining four
strategies) are untouched. -/
theorem processDiagram_strategy_order_and_byId_paint
    (c : Container) (indicator : MetricIndicator) (options : DiagramOptions)
    (i : Nat) (e : ShapeElem) (d : DivElem)
    (hsel : selectElementById c indicator.metricName = some i)
    (hget : c.idElems.get? i = some e)
    (hdiv : e.div = some d) :
    (∀ k,
      (selectedStrategy c k = some Strategy.byId ↔
        (selectElementById c k).isSome = true)
      ∧ (selectedStrategy c k = some Strategy.spanEdgeLabel ↔
          selectElementById c k = none ∧ selectElementByEdgeLabel c k ≠ [])
      ∧ (selectedStrategy c k = some Strategy.divAlias ↔
          selectElementById c k = none ∧ selectElementByEdgeLabel c k = []
          ∧ (selectDivElementByAlias c k).isSome = true)
      ∧ (selectedStrategy c k = some Strategy.textExact ↔
          selectElementById c k = none ∧ selectElementByEdgeLabel c k = []
          ∧ selectDivElementByAlias c k = none
          ∧ selectTextElementByAlias c k ≠ [])
      ∧ (selectedStrategy c k = some Strategy.textSubstring ↔
          selectElementById c k = none ∧ selectElementByEdgeLabel c k = []
          ∧ selectDivElementByAlias c k = none
          ∧ selectTextElementByAlias c k = []
          ∧ selectTextElementContainingAlias c k ≠ [])
      ∧ (selectedStrategy c k = none ↔
          selectElementById c k = none ∧ selectElementByEdgeLabel c k = []
          ∧ selectDivElementByAlias c k = none
          ∧ selectTextElementByAlias c k = []
          ∧ selectTextElementContainingAlias c k = []))
    ∧ selectedStrategy c indicator.metricName = some Strategy.byId
    ∧ (processDiagramSeriesModel c indicator options).idElems
        = c.idElems.set i (styleD3Shapes e indicator options.useBackground options.nodeSize)
    ∧ (styleD3Shapes e indicator options.useBackground options.nodeSize).div.map DivElem.textLines
        = some (d.textLines ++ [" " ++ formattedValueToString indicator]
            ++ (if indicator.isComposite then [indicator.originalName.getD "undefined"] else []))
    ∧ (processDiagramSeriesModel c indicator options).spans = c.spans
    ∧ (processDiagramSeriesModel c indicator options).divAliases = c.divAliases
    ∧ (processDiagramSeriesModel c indicator options).texts = c.texts := by
  have hget' : c.idElems[i]? = some e := by
    rw [← List.get?_eq_getElem?]
    exact hget
  refine ⟨?_, ?_, ?_, ?_, ?_, ?_, ?_⟩
  · intro k
    unfold selectedStrategy
    cases h1 : selectElementById c k with
    | some j => simp [h1]
    | none =>
      cases h2 : selectElementByEdgeLabel c k with
      | cons j js => simp [h1, h2]
      | nil =>
        cases h3 : selectDivElementByAlias c k with
        | some j => simp [h1, h2, h3]
        | none =>
          cases h4 : selectTextElementByAlias c k with
          | cons j js => simp [h1, h2, h3, h4]
          | nil =>
            cases h5 : selectTextElementContainingAlias c k with
            | cons j js => simp [h1, h2, h3, h4, h5]
            | nil => simp [h1, h2, h3, h4, h5]
  · unfold selectedStrategy
    simp [hsel]
  · simp [processDiagramSeriesModel, hsel, hget']
  · cases hcol : indicator.color with
    | none => simp [styleD3Shapes, hdiv, hcol]
    | some col =>
      cases hub : options.useBackground with
      | false => simp [styleD3Shapes, hdiv, hcol, hub]
      | true => simp [styleD3Shapes, hdiv, hcol, hub]
  · simp [processDiagramSeriesModel, hsel, hget']
  · simp [processDiagramSeriesModel, hsel, hget']
  · simp [processDiagramSeriesModel, hsel, hget']

def divCpu : DivElem := { textLines := ["CPU"] }

def shapeCpu : ShapeElem := { dataId := some "cpu", div := some divCpu }

def c2Container : Container :=
  { idElems := [shapeCpu],
    spans := [{ text := "cpu-span" }],
    divAliases := [],
    texts := [{ text := "other" }] }

def indCpu : MetricIndicator :=
  { metricName := "cpu", valueName := "v", numeric := some 42, text := "42%" }

def opts2 : DiagramOptions :=
  { useBackground := false, nodeSize := { minWidth := 10, minHeight := 10 } }

/-- C2 witness: a shape element with `data-id="cpu"` and an indicator with
`metricName="cpu"`: the byId strategy fires, the shape paint runs, the
div's text gains `" 42%"` as a trailing line, and the other populations
stay untouched. -/
theorem processDiagram_strategy_order_and_byId_paint_witness :
    selectElementById c2Container "cpu" = some 0
    ∧ c2Container.idElems.get? 0 = some shapeCpu
    ∧ shapeCpu.div = some divCpu
    ∧ selectedStrategy c2Container "cpu" = some Strategy.byId
    ∧ (processDiagramSeriesModel c2Container indCpu opts2).idElems
        = c2Container.idElems.set 0
            (styleD3Shapes shapeCpu indCpu opts2.useBackground opts2.nodeSize)
    ∧ (styleD3Shapes shapeCpu indCpu opts2.useBackground opts2.nodeSize).div.map DivElem.textLines
        = some (divCpu.textLines ++ [" " ++ formattedValueToString indCpu]
            ++ (if indCpu.isComposite then [indCpu.originalName.getD "undefined"] else []))
    ∧ divCpu.textLines ++ [" " ++ formattedValueToString indCpu]
        ++ (if indCpu.isComposite then [indCpu.originalName.getD "undefined"] else [])
        = ["CPU", " 42%"]
    ∧ (processDiagramSeriesModel c2Container indCpu opts2).spans = c2Container.spans
    ∧ (processDiagramSeriesModel c2Container indCpu opts2).divAliases = c2Container.divAliases
    ∧ (processDiagramSeriesModel c2Container indCpu opts2).texts = c2Container.texts := by
  have h := processDiagram_strategy_order_and_byId_paint c2Container indCpu opts2 0
    shapeCpu divCpu rfl rfl rfl
  exact ⟨rfl, rfl, rfl, h.2.1, h.2.2.1, h.2.2.2.1, rfl, h.2.2.2.2.1, h.2.2.2.2.2.1,
    h.2.2.2.2.2.2⟩

/-- C7: an indicator whose metric name matches no element under any of the
five lookup strategies leaves the container exactly as it was
(`processDiagramSeriesModel` is total — the source has no throwing path —
and returns the container unchanged). -/
theorem no_match_leaves_container_unchanged
    (c : Container) (indicator : MetricIndicator) (options : DiagramOptions)
    (h1 : selectElementById c indicator.metricName = none)
    (h2 : selectElementByEdgeLabel c indicator.metricName = [])
    (h3 : selectDivElementByAlias c indicator.metricName = none)
    (h4 : selectTextElementByAlias c indicator.metricName = [])
    (h5 : selectTextElementContainingAlias c indicator.metricName = []) :
    processDiagramSeriesModel c indicator options = c := by
  simp [processDiagramSeriesModel, h1, h2, h3, h4, h5]

def indGpu : MetricIndicator :=
  { metricName := "gpu", valueName := "v", numeric := some 1, text := "1" }

/-- C7 witness: a container whose elements all carry other names is
returned unchanged for the metric name `"gpu"`. -/
theorem no_match_leaves_container_unchanged_witness :
    selectElementById c2Container "gpu" = none
    ∧ selectElementByEdgeLabel c2Container "gpu" = []
    ∧ selectDivElementByAlias c2Container "gpu" = none
    ∧ selectTextElementByAlias c2Container "gpu" = []
    ∧ selectTextElementContainingAlias c2Container "gpu" = []
    ∧ processDiagramSeriesModel c2Container indGpu opts2 = c2Container :=
  ⟨rfl, rfl, rfl, rfl, rfl,
   no_match_leaves_container_unchanged c2Container indGpu opts2 rfl rfl rfl rfl rfl⟩

/-- C8: when the foreignObject's current width/height attributes parse as
numbers (a missing or empty attribute defaults to `'1'`), the resize helper
writes back exactly the maximum of the parsed current value and the
configured minimum — so the written size is never below
`nodeSize.minWidth`/`minHeight` and never below the current value (it never
shrinks the foreignObject). -/
theorem resizeGrouping_respects_minimums
    (g : GroupingCtx) (nodeSize : NodeSizeOptions) (w h : Int)
    (hw : parseIntJS (attrOrOne g.foWidth) = some w)
    (hh : parseIntJS (attrOrOne g.foHeight) = some h) :
    (resizeGrouping (some g) nodeSize).map GroupingCtx.foWidth
        = some (some (toString (max w nodeSize.minWidth)))
    ∧ (resizeGrouping (some g) nodeSize).map GroupingCtx.foHeight
        = some (some (toString (max h nodeSize.minHeight)))
    ∧ nodeSize.minWidth ≤ max w nodeSize.minWidth
    ∧ w ≤ max w nodeSize.minWidth
    ∧ nodeSize.minHeight ≤ max h nodeSize.minHeight
    ∧ h ≤ max h nodeSize.minHeight := by
  refine ⟨?_, ?_, le_max_right _ _, le_max_left _ _, le_max_right _ _, le_max_left _ _⟩
  · simp [resizeGrouping, jsMaxNan, hw, jsNumToString]
  · simp [resizeGrouping, jsMaxNan, hh, jsNumToString]

def gSmall : GroupingCtx := { foWidth := some "3", foHeight := some "" }

def nsConfig : NodeSizeOptions := { minWidth := 10, minHeight := 20 }

/-- C8 witness: a foreignObject measuring `width="3"` with an empty height
attribute, under configured minimums 10×20, is written back as 10×20. -/
theorem resizeGrouping_respects_minimums_witness :
    parseIntJS (attrOrOne gSmall.foWidth) = some 3
    ∧ parseIntJS (attrOrOne gSmall.foHeight) = some 1
    ∧ ((resizeGrouping (some gSmall) nsConfig).map GroupingCtx.foWidth
        = some (some (toString (max 3 nsConfig.minWidth)))
      ∧ (resizeGrouping (some gSmall) nsConfig).map GroupingCtx.foHeight
        = some (some (toString (max 1 nsConfig.minHeight)))
      ∧ nsConfig.minWidth ≤ max 3 nsConfig.minWidth
      ∧ (3 : Int) ≤ max 3 nsConfig.minWidth
      ∧ nsConfig.minHeight ≤ max 1 nsConfig.minHeight
      ∧ (1 : Int) ≤ max 1 nsConfig.minHeight)
    ∧ (resizeGrouping (some gSmall) nsConfig).map GroupingCtx.foWidth
        = some (some "10")
    ∧ (resizeGrouping (some gSmall) nsConfig).map GroupingCtx.foHeight
        = some (some "20") :=
  ⟨rfl, rfl, resizeGrouping_respects_minimums gSmall nsConfig 3 1 rfl rfl, rfl, rfl⟩

/-- C9 (code bug): the spec's hide rule says a series is hidden under
`hideEmpty` only when EVERY value pair is null, but the code's
`isNullOnlySeries` is the negation of an AND-fold of `value !== null`,
which is true as soon as SOME value is null.  The series
`[[0, 5], [0, null]]` has a non-null value 5 and sum 5 ≠ 0, so the claim
says it must be included, yet `shouldHideLegendItem` hides it under
`hideEmpty = true` and it is excluded from the legend items. -/
theorem hideEmpty_hides_partial_null_series_eval :
    shouldHideLegendItem [(some 0, some 5), (some 0, none)] true false = true
    ∧ ¬(∀ p ∈ [((some 0 : Option Int), (some 5 : Option Int)), (some 0, none)],
          p.2 = none)
    ∧ ([((some 0 : Option Int), (some 5 : Option Int)), (some 0, none)].foldl
          (fun acc current => acc + current.2.getD 0) (0 : Int)) ≠ 0
    ∧ getLegendItems
        [{ label := "s1", seriesData := [(some 0, some 5), (some 0, none)] }]
        true false
        = [] := by
  refine ⟨rfl, by decide, by decide, rfl⟩

/-- C10: when the panel container has no `<svg>` descendant,
`updateDiagramStyle` returns it untouched — no indicator is processed, no
global render tweak is applied, and no `<style>` block is appended. -/
theorem updateDiagramStyle_no_svg_noop
    (el : PanelElement) (models : List DiagramSeriesModel)
    (options : DiagramOptions) (diagramId : String)
    (h : el.svg = none) :
    updateDiagramStyle el models options diagramId = el := by
  simp [updateDiagramStyle, h]

def elNoSvg : PanelElement := { svg := none, styleBlocks := [("body \x7b\x7d", "old")] }

def seriesS1 : DiagramSeriesModel :=
  { label := "cpu",
    customConfig := some { valueName := "Last" },
    info := some [{ title := "Last", text := "42%", numeric := some 42 }] }

/-- C10 witness: a container without `<svg>`, nonempty series data and
options notwithstanding, is returned byte-for-byte: in particular the
pre-existing style block list is unchanged. -/
theorem updateDiagramStyle_no_svg_noop_witness :
    elNoSvg.svg = none
    ∧ updateDiagramStyle elNoSvg [seriesS1] opts2 "diagram-1" = elNoSvg
    ∧ (updateDiagramStyle elNoSvg [seriesS1] opts2 "diagram-1").styleBlocks
        = [("body \x7b\x7d", "old")] :=
  ⟨rfl, updateDiagramStyle_no_svg_noop elNoSvg [seriesS1] opts2 "diagram-1" rfl,
   rfl⟩

/-- C4: a diagram definition that already contains an initialization
directive block (a `%%{` marker later closed by `}%%`) is passed through
`contentProcessor` byte-for-byte: no theme-variable merge output appears
and no second directive is prepended. -/
theorem contentProcessor_passthrough_with_directive
    (isDark : Bool) (options : ControllerOptions) (content : String)
    (h : hasInitDirective content = true) :
    contentProcessor isDark options content = content := by
  simp [contentProcessor, h]

def contentWithDirective : String :=
  "%%\x7binit: \x7b'theme': 'forest'\x7d\x7d%%\ngraph TD; A-->B"

/-- C4 witness: a concrete graph definition carrying its own init directive
comes back unchanged. -/
theorem contentProcessor_passthrough_with_directive_witness :
    hasInitDirective contentWithDirective = true
    ∧ contentProcessor true {} contentWithDirective = contentWithDirective :=
  ⟨rfl, contentProcessor_passthrough_with_directive true {} contentWithDirective rfl⟩

def env500 : ControllerEnv :=
  { replaceVariables := fun s => s,
    fetch := fun _ => { status := 500, statusText := "Internal Server Error" },
    render := fun _ _ => .ok "<svg></svg>",
    isDark := false,
    options := { contentUrl := "https://example.com/diagram.mmd" },
    panelId := 3 }

/-- C5 counterexample: with a remote definition URL answering HTTP 500, an
explicit error is indeed raised and the render attempt is aborted (no
render call is made) — but the error propagates out of the render pass
uncaught and the diagram container keeps its initial content: no inline
error markup is written, contrary to the claim. -/
theorem fetch_failure_not_surfaced_counterexample :
    (runMermaidRenderPass env500).thrown
        = some "Failed to fetch diagram definition: 500 Internal Server Error"
    ∧ (runMermaidRenderPass env500).renderAttempts = []
    ∧ (runMermaidRenderPass env500).container = ContainerContent.initial
    ∧ ∀ s, (runMermaidRenderPass env500).container ≠ ContainerContent.html s := by
  have h3 : (runMermaidRenderPass env500).container = ContainerContent.initial := rfl
  refine ⟨rfl, rfl, h3, fun s hcontra => ?_⟩
  rw [h3] at hcontra
  exact ContainerContent.noConfusion hcontra

/-- C5 amended: a non-success HTTP status on the remote definition fetch
raises an explicit error that aborts the current render attempt (no render
call is made), but the error propagates out of the controller's render pass
uncaught and the container is left untouched — the inline error markup is
written only for errors thrown inside the render try block, because the
definition is awaited before that block. -/
theorem fetch_failure_aborts_and_propagates
    (env : ControllerEnv)
    (hurl : env.options.contentUrl ≠ "")
    (hbad : responseOk (env.fetch (env.replaceVariables env.options.contentUrl))
        = false) :
    runMermaidRenderPass env =
      { container := ContainerContent.initial,
        renderAttempts := [],
        thrown := some ("Failed to fetch diagram definition: "
          ++ toString (env.fetch (env.replaceVariables env.options.contentUrl)).status
          ++ " " ++ (env.fetch (env.replaceVariables env.options.contentUrl)).statusText) } := by
  simp [runMermaidRenderPass, loadDiagramDefinition, hurl, getRemoteDiagramDefinition,
    hbad]

/-- C5 amended witness: the HTTP-500 environment instantiates the amended
statement. -/
theorem fetch_failure_aborts_and_propagates_witness :
    env500.options.contentUrl ≠ ""
    ∧ responseOk (env500.fetch (env500.replaceVariables env500.options.contentUrl))
        = false
    ∧ runMermaidRenderPass env500 =
        { container := ContainerContent.initial,
          renderAttempts := [],
          thrown := some "Failed to fetch diagram definition: 500 Internal Server Error" } :=
  ⟨by decide, rfl, fetch_failure_aborts_and_propagates env500 (by decide) rfl⟩

/-- C6: when the primary render (theme-injected, variable-interpolated
definition) throws, exactly one fallback render runs, using the original
unmodified definition text and the same diagram id — the attempt list is
exactly those two calls.  If the fallback succeeds its SVG is installed; if
the fallback also throws, the caught (fallback) error's message is written
into the container as inline HTML, nothing propagates, and no further
render attempt is made. -/
theorem primary_render_failure_single_fallback
    (env : ControllerEnv) (defn e1 : String)
    (hload : loadDiagramDefinition env = .ok defn)
    (hfail : env.render (diagramIdOf env) (interpolatedOf env defn) = .error e1) :
    (runMermaidRenderPass env).renderAttempts
        = [(diagramIdOf env, interpolatedOf env defn), (diagramIdOf env, defn)]
    ∧ (∀ svg, env.render (diagramIdOf env) defn = .ok svg →
        (runMermaidRenderPass env).container = ContainerContent.html svg
        ∧ (runMermaidRenderPass env).thrown = none)
    ∧ (∀ e2, env.render (diagramIdOf env) defn = .error e2 →
        (runMermaidRenderPass env).container = ContainerContent.html (errorHtmlFor e2)
        ∧ (runMermaidRenderPass env).thrown = none) := by
  cases hfb : env.render (diagramIdOf env) defn with
  | ok svg =>
    refine ⟨?_, ?_, ?_⟩
    · simp [runMermaidRenderPass, hload, hfail, hfb]
    · intro s hs
      injection hs with hss
      subst hss
      constructor
      · simp [runMermaidRenderPass, hload, hfail, hfb]
      · simp [runMermaidRenderPass, hload, hfail, hfb]
    · intro e2 he2
      exact Except.noConfusion he2
  | error e2 =>
    refine ⟨?_, ?_, ?_⟩
    · simp [runMermaidRenderPass, hload, hfail, hfb]
    · intro s hs
      exact Except.noConfusion hs
    · intro e2' he2
      injection he2 with he
      subst he
      constructor
      · simp [runMermaidRenderPass, hload, hfail, hfb]
      · simp [runMermaidRenderPass, hload, hfail, hfb]

def envRenderBoom : ControllerEnv :=
  { replaceVariables := fun s => s,
    fetch := fun _ => { status := 200 },
    render := fun _ _ => .error "renderer exploded",
    isDark := false,
    options := { content := "graph TD; A-->B" },
    panelId := 7 }

/-- C6 witness: an inline definition whose render always throws — the pass
makes exactly the primary and one fallback attempt with the same diagram
id, and the container holds the inline error markup carrying the fallback
error's message. -/
theorem primary_render_failure_single_fallback_witness :
    loadDiagramDefinition envRenderBoom = Except.ok "graph TD; A-->B"
    ∧ envRenderBoom.render (diagramIdOf envRenderBoom)
        (interpolatedOf envRenderBoom "graph TD; A-->B") = Except.error "renderer exploded"
    ∧ ((runMermaidRenderPass envRenderBoom).renderAttempts
        = [(diagramIdOf envRenderBoom, interpolatedOf envRenderBoom "graph TD; A-->B"),
           (diagramIdOf envRenderBoom, "graph TD; A-->B")]
      ∧ (∀ svg, envRenderBoom.render (diagramIdOf envRenderBoom) "graph TD; A-->B"
            = Except.ok svg →
          (runMermaidRenderPass envRenderBoom).container = ContainerContent.html svg
          ∧ (runMermaidRenderPass envRenderBoom).thrown = none)
      ∧ (∀ e2, envRenderBoom.render (diagramIdOf envRenderBoom) "graph TD; A-->B"
            = Except.error e2 →
          (runMermaidRenderPass envRenderBoom).container
              = ContainerContent.html (errorHtmlFor e2)
          ∧ (runMermaidRenderPass envRenderBoom).thrown = none))
    ∧ (runMermaidRenderPass envRenderBoom).container
        = ContainerContent.html (errorHtmlFor "renderer exploded") :=
  ⟨rfl, rfl,
   primary_render_failure_single_fallback envRenderBoom "graph TD; A-->B"
     "renderer exploded" rfl rfl,
   rfl⟩
